import Mathlib

/-!
Verification of the TBG web front end (src/app.py).

The program is a minimal Flask application: three view functions
(`index`, `test_js`, `test_taioqi`), each registered on a fixed path and
each returning `render_template(<literal name>)` with no keyword
arguments, i.e. an empty rendering context.  The `__main__` block reads
one boolean, `settings.debug`, and passes it as the `debug` option of
`app.run`.

The embedding below models:
  - a render call (template name plus context bindings) as recorded data,
    since every handler body is a single `render_template` call;
  - the route table as an association list from path to render call,
    built from the literal route declarations;
  - the dispatch semantics of the hosting framework on a GET request:
    exact path match renders the associated template; a path whose
    slash-appended form is registered is answered with a redirect to
    that form (the default strict-slashes behaviour of the framework
    that the source relies on); any other path falls through to the
    standard not-found response;
  - the template renderer as an explicit fallible function argument, so
    that propagation of render failures can be stated;
  - process startup as building a launch record from the settings value.
-/

namespace TBG

/-- RenderCall records one call to the template renderer as written in a
handler body: the template name and the list of variable bindings passed
as the rendering context. -/
structure RenderCall where
  template : String
  context : List (String × String)
  deriving DecidableEq

/-- Response models the HTTP responses the component can produce:
success with a rendered body, a framework redirect to a canonical path,
the framework standard not-found response, and a server error escaping
from a failed render. -/
inductive Response where
  | ok (body : String)
  | redirect (location : String)
  | notFound
  | serverError (message : String)
  deriving DecidableEq

/-- Status code of each response shape. -/
def status : Response → Nat
  | .ok _ => 200
  | .redirect _ => 308
  | .notFound => 404
  | .serverError _ => 500

/-- Render is the interface of the external template renderer: template
name and context in, either a document body or a failure out. -/
abbrev Render : Type := String → List (String × String) → Except String String

/-- Handler of path `/` in src/app.py: `return render_template('index.html')`. -/
def index : RenderCall := ⟨"index.html", []⟩

/-- Handler of path `/test/` in src/app.py: `return render_template('test.html')`. -/
def test_js : RenderCall := ⟨"test.html", []⟩

/-- Handler of path `/test2/` in src/app.py: `return render_template('test2.html')`. -/
def test_taioqi : RenderCall := ⟨"test2.html", []⟩

/-- Route table of src/app.py, in declaration order: the three
`app.route` registrations. -/
def app_routes : List (String × RenderCall) :=
  [("/", index), ("/test/", test_js), ("/test2/", test_taioqi)]

/-- Dispatch of one GET request against a route table: exact match
renders the recorded template call; otherwise, if appending a trailing
slash reaches a registered path, the framework answers with a redirect
to that path; otherwise the framework standard not-found response.
Render failures pass through untouched as server errors. -/
def dispatchWith (render : Render) (table : List (String × RenderCall))
    (path : String) : Response :=
  match table.lookup path with
  | some rc =>
      match render rc.template rc.context with
      | .ok body => Response.ok body
      | .error e => Response.serverError e
  | none =>
      if (table.lookup (path ++ "/")).isSome then
        Response.redirect (path ++ "/")
      else
        Response.notFound

/-- Settings models the external settings source: it exposes the single
boolean `debug` that src/app.py reads. -/
structure Settings where
  debug : Bool

/-- Launch records what the `app.run` call receives: the route table the
application object carries and the debug option. -/
structure Launch where
  table : List (String × RenderCall)
  debug : Bool
  deriving DecidableEq

/-- The `app.run(debug=...)` call: it packages the route table and the
debug flag into the launch configuration of the listener. -/
def appRun (table : List (String × RenderCall)) (debug : Bool) : Launch :=
  ⟨table, debug⟩

/-- The `__main__` block of src/app.py: read `settings.debug` and pass
it to `app.run`. -/
def mainProgram (settings : Settings) : Launch :=
  appRun app_routes settings.debug

/-- Serving a request on a launched listener: dispatch against the
table the launch carries.  The debug flag is visibly available here and
visibly unused by dispatch. -/
def serve (launch : Launch) (render : Render) (path : String) : Response :=
  dispatchWith render launch.table path

/-- Request models an inbound GET request with everything beyond the
path that the framework would offer a handler: query parameters,
headers and a body.  The handlers of src/app.py read none of them. -/
structure Request where
  path : String
  query : List (String × String)
  headers : List (String × String)
  body : String

/-- Handling of a request by the application: only the path is
consulted. -/
def handleRequest (render : Render) (table : List (String × RenderCall))
    (req : Request) : Response :=
  dispatchWith render table req.path

/-- Stateful view of one request cycle: the process state is the route
table (the only process-wide data of src/app.py), and handling a
request returns the response together with the state afterwards.  The
handlers contain no assignment, write or external call, so the state
after is the state before. -/
def handleStep (render : Render) (st : List (String × RenderCall))
    (req : Request) : Response × List (String × RenderCall) :=
  (dispatchWith render st req.path, st)

/-- Modelled from the spec: the second, single-route variant of the
component is not present under src/ (only the three-route variant is).
Per the spec, the two variants differ only in which routes are present
and the second one has only the index route. -/
def app_routes_single : List (String × RenderCall) :=
  [("/", index)]

/-- A renderer that always succeeds, wrapping the template name in a
minimal document; used to evaluate the dispatcher on concrete inputs. -/
def renderFixed : Render :=
  fun t _ => Except.ok ("<html>" ++ t ++ "</html>")

/-- A renderer that always fails, as when the named template file is
missing. -/
def renderFail : Render :=
  fun t _ => Except.error ("TemplateNotFound: " ++ t)

/-- Characterization of lookup in the route table of src/app.py. -/
theorem app_routes_lookup (p : String) :
    app_routes.lookup p =
      if p = "/" then some index
      else if p = "/test/" then some test_js
      else if p = "/test2/" then some test_taioqi
      else none := by
  simp only [app_routes, List.lookup]
  cases h1 : p == "/"
  case true =>
    simp only [beq_iff_eq] at h1
    simp [h1]
  case false =>
    simp only [beq_eq_false_iff_ne, ne_eq] at h1
    cases h2 : p == "/test/"
    case true =>
      simp only [beq_iff_eq] at h2
      simp [h1, h2]
    case false =>
      simp only [beq_eq_false_iff_ne, ne_eq] at h2
      cases h3 : p == "/test2/"
      case true =>
        simp only [beq_iff_eq] at h3
        simp [h1, h2, h3]
      case false =>
        simp only [beq_eq_false_iff_ne, ne_eq] at h3
        simp [h1, h2, h3]

/-- Dispatch on a matched path whose render succeeds returns the body. -/
theorem dispatchWith_ok (render : Render) (table : List (String × RenderCall))
    (path : String) (rc : RenderCall) (body : String)
    (h : table.lookup path = some rc)
    (hr : render rc.template rc.context = Except.ok body) :
    dispatchWith render table path = Response.ok body := by
  unfold dispatchWith
  simp only [h, hr]

/-- Dispatch on a matched path whose render fails returns the error. -/
theorem dispatchWith_error (render : Render) (table : List (String × RenderCall))
    (path : String) (rc : RenderCall) (e : String)
    (h : table.lookup path = some rc)
    (hr : render rc.template rc.context = Except.error e) :
    dispatchWith render table path = Response.serverError e := by
  unfold dispatchWith
  simp only [h, hr]

/-- Dispatch on an unmatched path whose slash-appended form is matched
returns a redirect. -/
theorem dispatchWith_redirect (render : Render)
    (table : List (String × RenderCall)) (path : String)
    (h : table.lookup path = none)
    (h2 : (table.lookup (path ++ "/")).isSome = true) :
    dispatchWith render table path = Response.redirect (path ++ "/") := by
  unfold dispatchWith
  simp only [h, h2, if_true]

/-- Dispatch on a path matched neither directly nor after appending a
slash returns the framework standard not-found response. -/
theorem dispatchWith_notFound (render : Render)
    (table : List (String × RenderCall)) (path : String)
    (h : table.lookup path = none)
    (h2 : (table.lookup (path ++ "/")).isSome = false) :
    dispatchWith render table path = Response.notFound := by
  unfold dispatchWith
  simp [h, h2]

/-- C1: for every path registered in the route table, a GET request to
that path is answered with status 200 and a body equal to the result of
rendering the template associated with that path with an empty
rendering context (no variable bindings). -/
theorem registered_path_renders_with_empty_context
    (p : String) (rc : RenderCall) (h : app_routes.lookup p = some rc) :
    rc.context = [] ∧
      ∀ (render : Render) (body : String),
        render rc.template [] = Except.ok body →
          dispatchWith render app_routes p = Response.ok body ∧
          status (dispatchWith render app_routes p) = 200 := by
  rw [app_routes_lookup] at h
  split at h
  next hp =>
    subst hp
    injection h with h
    subst h
    refine ⟨rfl, ?_⟩
    intro render body hr
    have hd := dispatchWith_ok render app_routes "/" index body (by decide) hr
    exact ⟨hd, by rw [hd]; rfl⟩
  next hp =>
    split at h
    next hq =>
      subst hq
      injection h with h
      subst h
      refine ⟨rfl, ?_⟩
      intro render body hr
      have hd := dispatchWith_ok render app_routes "/test/" test_js body (by decide) hr
      exact ⟨hd, by rw [hd]; rfl⟩
    next hq =>
      split at h
      next hs =>
        subst hs
        injection h with h
        subst h
        refine ⟨rfl, ?_⟩
        intro render body hr
        have hd := dispatchWith_ok render app_routes "/test2/" test_taioqi body (by decide) hr
        exact ⟨hd, by rw [hd]; rfl⟩
      next hs =>
        exact Option.noConfusion h

/-- Witness for C1 at the concrete path `/` with a concrete successful
renderer. -/
theorem registered_path_renders_with_empty_context_witness :
    dispatchWith renderFixed app_routes "/" = Response.ok "<html>index.html</html>" :=
  ((registered_path_renders_with_empty_context "/" index (by decide)).2
    renderFixed "<html>index.html</html>" rfl).1

/-- C2: the route table has exactly three entries: `/` mapping to the
index template, `/test/` mapping to the test template and `/test2/`
mapping to the test2 template; no other path is registered. -/
theorem route_table_exactly_three_entries :
    index.template = "index.html" ∧ test_js.template = "test.html" ∧
    test_taioqi.template = "test2.html" ∧
    ∀ (p : String) (rc : RenderCall),
      app_routes.lookup p = some rc ↔
        (p = "/" ∧ rc = index) ∨ (p = "/test/" ∧ rc = test_js) ∨
        (p = "/test2/" ∧ rc = test_taioqi) := by
  refine ⟨rfl, rfl, rfl, ?_⟩
  intro p rc
  rw [app_routes_lookup]
  constructor
  · intro h
    split at h
    next hp => exact Or.inl ⟨hp, (Option.some.inj h).symm⟩
    next hp =>
      split at h
      next hq => exact Or.inr (Or.inl ⟨hq, (Option.some.inj h).symm⟩)
      next hq =>
        split at h
        next hs => exact Or.inr (Or.inr ⟨hs, (Option.some.inj h).symm⟩)
        next hs => exact Option.noConfusion h
  · rintro (⟨hp, hrc⟩ | ⟨hp, hrc⟩ | ⟨hp, hrc⟩) <;> subst hp <;> subst hrc <;> decide

/-- C3 counterexample: the path `/test2` is not present in the route
table, yet a GET request to it is answered with a redirect, not with
the standard 404 response. -/
theorem unregistered_path_404_counterexample :
    app_routes.lookup "/test2" = none ∧
    dispatchWith renderFixed app_routes "/test2" = Response.redirect "/test2/" ∧
    status (dispatchWith renderFixed app_routes "/test2") ≠ 404 := by
  decide

/-- C3 amended: for any path such that neither the path itself nor its
slash-appended form is present in the route table, a GET request is
answered with the framework standard not-found response with status
404, with no custom content from the component. -/
theorem unregistered_path_returns_framework_404 (render : Render) (p : String)
    (h1 : app_routes.lookup p = none)
    (h2 : app_routes.lookup (p ++ "/") = none) :
    dispatchWith render app_routes p = Response.notFound ∧
    status (dispatchWith render app_routes p) = 404 := by
  have hd := dispatchWith_notFound render app_routes p h1 (by rw [h2]; rfl)
  exact ⟨hd, by rw [hd]; rfl⟩

/-- Witness for the amended C3 at the concrete path `/nonexistent`. -/
theorem unregistered_path_returns_framework_404_witness :
    dispatchWith renderFixed app_routes "/nonexistent" = Response.notFound :=
  (unregistered_path_returns_framework_404 renderFixed "/nonexistent"
    (by decide) (by decide)).1

/-- C4: the single-route variant of the component, modelled from the
spec, carries only the index route, is a sub-table of the three-route
variant from src/app.py (the variants differ only in which routes are
present), and on it a GET for `/` returns 200 while a GET for `/test/`
returns 404 because that route is absent there. -/
theorem single_route_variant (render : Render) (body : String)
    (h : render "index.html" [] = Except.ok body) :
    app_routes_single.Sublist app_routes ∧
    app_routes_single.length = 1 ∧ app_routes.length = 3 ∧
    dispatchWith render app_routes_single "/" = Response.ok body ∧
    status (dispatchWith render app_routes_single "/") = 200 ∧
    dispatchWith render app_routes_single "/test/" = Response.notFound ∧
    status (dispatchWith render app_routes_single "/test/") = 404 := by
  have hok := dispatchWith_ok render app_routes_single "/" index body (by decide) h
  have hnf := dispatchWith_notFound render app_routes_single "/test/"
    (by decide) (by decide)
  exact ⟨List.Sublist.cons₂ _ (List.nil_sublist _), rfl, rfl, hok,
    by rw [hok]; rfl, hnf, by rw [hnf]; rfl⟩

/-- Witness for C4 with a concrete successful renderer. -/
theorem single_route_variant_witness :
    dispatchWith renderFixed app_routes_single "/" =
      Response.ok "<html>index.html</html>" :=
  (single_route_variant renderFixed "<html>index.html</html>" rfl).2.2.2.1

/-- C5: run as the main program, the process reads the single boolean
debug value from the settings source and passes exactly it as the debug
option of the listener launch, together with the unchanged route
table. -/
theorem main_passes_debug_setting (s : Settings) :
    (mainProgram s).debug = s.debug ∧ (mainProgram s).table = app_routes ∧
    mainProgram s = appRun app_routes s.debug :=
  ⟨rfl, rfl, rfl⟩

/-- C6: for every request path, the status of the response is the same
whether the debug startup flag read from settings is true or false; the
flag does not influence dispatch. -/
theorem debug_flag_does_not_affect_routing (render : Render) (p : String)
    (d1 d2 : Bool) :
    status (serve (mainProgram ⟨d1⟩) render p) =
      status (serve (mainProgram ⟨d2⟩) render p) := rfl

/-- C7: when rendering the template of a matched route fails, no handler
of this component catches or translates the failure: dispatch surfaces
the very same error as a server error response with status 500. -/
theorem render_failure_propagates (render : Render)
    (table : List (String × RenderCall)) (p : String) (rc : RenderCall)
    (e : String) (h : table.lookup p = some rc)
    (hr : render rc.template rc.context = Except.error e) :
    dispatchWith render table p = Response.serverError e ∧
    status (dispatchWith render table p) = 500 := by
  have hd := dispatchWith_error render table p rc e h hr
  exact ⟨hd, by rw [hd]; rfl⟩

/-- Witness for C7 with a renderer that fails on every template, at the
concrete path `/`. -/
theorem render_failure_propagates_witness :
    dispatchWith renderFail app_routes "/" =
      Response.serverError "TemplateNotFound: index.html" :=
  (render_failure_propagates renderFail app_routes "/" index
    "TemplateNotFound: index.html" (by decide) rfl).1

/-- C8: the response is a function of the request path alone: two GET
requests with equal paths receive identical responses whatever their
query parameters, headers or bodies, and handling a request leaves the
process state unchanged, so prior requests cannot influence later
ones. -/
theorem response_depends_only_on_path (render : Render)
    (table : List (String × RenderCall)) :
    (∀ r1 r2 : Request, r1.path = r2.path →
        handleRequest render table r1 = handleRequest render table r2) ∧
    (∀ (st : List (String × RenderCall)) (r : Request),
        (handleStep render st r).2 = st ∧
        (handleStep render st r).1 = handleRequest render st r) := by
  constructor
  · intro r1 r2 h
    unfold handleRequest
    rw [h]
  · intro st r
    exact ⟨rfl, rfl⟩

/-- Witness for C8: two concrete requests for `/` differing in query,
headers and body receive the same response. -/
theorem response_depends_only_on_path_witness :
    handleRequest renderFixed app_routes
        ⟨"/", [("q", "1")], [("X-Header", "a")], "body1"⟩ =
      handleRequest renderFixed app_routes ⟨"/", [], [], ""⟩ :=
  (response_depends_only_on_path renderFixed app_routes).1 _ _ rfl

/-- C9: route table invariant: the registered paths are unique, each
path maps to exactly one render call, the table the main program hands
to the listener is the literal declaration table, and handling a
request never mutates it. -/
theorem route_table_invariant :
    (app_routes.map Prod.fst).Nodup ∧
    (∀ (p : String) (rc1 rc2 : RenderCall),
        (p, rc1) ∈ app_routes → (p, rc2) ∈ app_routes → rc1 = rc2) ∧
    (∀ s : Settings, (mainProgram s).table = app_routes) ∧
    (∀ (render : Render) (r : Request),
        (handleStep render app_routes r).2 = app_routes) := by
  refine ⟨by decide, ?_, fun _ => rfl, fun _ _ => rfl⟩
  intro p rc1 rc2 h1 h2
  simp only [app_routes, List.mem_cons, List.not_mem_nil, or_false] at h1 h2
  rcases h1 with h1 | h1 | h1 <;> rcases h2 with h2 | h2 | h2 <;>
    injection h1 with hp1 hr1 <;> injection h2 with hp2 hr2 <;>
    subst hp1 <;> subst hr1 <;> subst hr2 <;>
    first
      | rfl
      | exact absurd hp2 (by decide)

/-- Witness for C9 at the concrete path `/`. -/
theorem route_table_invariant_witness : index = index :=
  route_table_invariant.2.1 "/" index index (by decide) (by decide)

/-- C10: for the registered paths declared with a trailing slash, a GET
request to the same path without the trailing slash does not return
404: the framework answers with a redirect to the trailing-slash form
of the path. -/
theorem slashless_path_redirects (render : Render) :
    dispatchWith render app_routes "/test" = Response.redirect "/test/" ∧
    status (dispatchWith render app_routes "/test") ≠ 404 ∧
    dispatchWith render app_routes "/test2" = Response.redirect "/test2/" ∧
    status (dispatchWith render app_routes "/test2") ≠ 404 := by
  have h1 := dispatchWith_redirect render app_routes "/test" (by decide) (by decide)
  have h2 := dispatchWith_redirect render app_routes "/test2" (by decide) (by decide)
  exact ⟨h1, by rw [h1]; decide, h2, by rw [h2]; decide⟩

end TBG
